import Mathlib

/-!
Verification of the mamba SQL dialect-generation engine (DDL synthesis):
a shallow embedding of src/mamba/enterprise/mysql.py and
src/mamba/enterprise/postgres.py, together with theorems about the
CREATE TABLE / DROP TABLE builders, the column translators, the
primary-key and reference resolvers and the default-value encoder.

Python semantics modelled explicitly:
- exceptions become `Except Err`;
- `str.format` field/argument mismatches become `Err.indexError`;
- truthiness of `dict.get`-style lookups is modelled by `Option` plus
  an explicit coercion to `Bool`;
- strings are Lean `String`s; the helpers below mirror `str.split`,
  `str.replace`, `str.join` and `str.lower` at the character level so
  that every definition evaluates inside the kernel.
-/

deriving instance DecidableEq for Except

namespace Mamba

/-- Character-level split, mirroring Python `str.split(sep)` for a
one-character separator (the only separators the source uses: `,` and `.`). -/
def splitChar (c : Char) : List Char → List (List Char)
  | [] => [[]]
  | x :: xs =>
    let r := splitChar c xs
    if x = c then [] :: r
    else
      match r with
      | [] => [[x]]
      | y :: ys => (x :: y) :: ys

/-- Python `s.split(c)` for a single-character separator. -/
def strSplit (s : String) (c : Char) : List String :=
  (splitChar c s.data).map (fun l => String.mk l)

/-- Python `s.replace(a, b)` for one-character pattern and replacement
(the source only replaces `'` by a backquote). -/
def replChar (s : String) (a b : Char) : String :=
  String.mk (s.data.map (fun c => if c = a then b else c))

/-- Python `str.lower` restricted to ASCII class names such as `Decimal`. -/
def strLower (s : String) : String :=
  String.mk (s.data.map Char.toLower)

/-- Concatenation of a list of strings (Python `''.join`). -/
def joinStr : List String → String
  | [] => ""
  | s :: l => s ++ joinStr l

/-- Python `sep.join(items)`. -/
def sepJoin (sep : String) : List String → String
  | [] => ""
  | [a] => a
  | a :: b :: l => a ++ sep ++ sepJoin sep (b :: l)

/-- Column kinds: the Storm property classes the two adapters dispatch on.
`other` stands for any property class unknown to both adapters (the
open-world fallback case of `singledispatch`). -/
inductive Kind where
  | bool | int | float | decimal | unicode | rawStr | pickle | json
  | dateTime | date | time | timeDelta | uuid | enum | nativeEnum | list | other
deriving DecidableEq

/-- The Python values a Storm column `size` parameter can hold: `Undef`, an
int, a str, a float (kept as its shortest-repr decimal literal, e.g. `10.2`,
which is exactly what `str(10.2)` yields), or a 2-tuple. -/
inductive PyVal where
  | vUndef
  | vInt (n : Int)
  | vStr (s : String)
  | vFloat (lit : String)
  | vPair (a b : PyVal)
deriving DecidableEq

/-- Python `str(...)` on a `PyVal` (tuples print as `(a, b)`). -/
def pyStr : PyVal → String
  | .vUndef => "Undef"
  | .vInt n => toString n
  | .vStr s => s
  | .vFloat lit => lit
  | .vPair a b => "(" ++ pyStr a ++ ", " ++ pyStr b ++ ")"

/-- Render a normalized decimal size pair as (precision, scale) text. -/
def pairRender : PyVal → Option (String × String)
  | .vPair a b => some (pyStr a, pyStr b)
  | _ => none

/-- A column's configured default: absent (`Undef`), a Python bool, or any
other value carried as its `str(...)` rendering. -/
inductive MambaDefault where
  | undef
  | boolean (b : Bool)
  | value (s : String)
deriving DecidableEq

/-- The distinguished error kinds the two adapters can raise, plus the
Python-level `IndexError`/`KeyError` that string formatting and dict
lookups can produce. -/
inductive Err where
  | mysqlMissingPrimaryKey
  | mysqlNotEnumColumn
  | postgresMissingPrimaryKey
  | postgresMissingArrayDefinition
  | postgresNotEnumColumn
  | indexError
  | keyError
deriving DecidableEq

/-- A column descriptor: one Storm property plus the wrapped
`storm.properties.Column` attributes the adapters read
(`size`, `unsigned`, `auto_increment`, `array`, `_reverse_map`,
nullability, the default value and the primary flag). `className` is the
Python class name of the property (e.g. `Int`, `Decimal`). -/
structure Column where
  name : String
  className : String := ""
  kind : Kind
  size : PyVal := .vUndef
  unsigned : Bool := false
  autoIncrement : Bool := false
  array : Option String := none
  enumMap : List (Nat × String) := []
  nullable : Bool := true
  primary : Bool := false
  defaultVal : MambaDefault := .undef
deriving DecidableEq

/-- A many-to-one relationship: `storm.references.Reference` reduced to the
three names `parse_references` reads (local key, remote key, remote table). -/
structure RefDescr where
  localKey : String
  remoteKey : String
  remoteTable : String
deriving DecidableEq

/-- A model (table descriptor): `__storm_table__`, the ordered columns of
`_storm_columns`, the optional `__storm_primary__` compound key, the
optional `__engine__`, `__on_update__`/`__on_delete__`, and the discovered
`Reference` attributes. -/
structure Model where
  tableName : String
  columns : List Column
  stormPrimary : Option (List String) := none
  engineOpt : Option String := none
  onUpdate : Option String := none
  onDelete : Option String := none
  references : List RefDescr := []
deriving DecidableEq

/-- The `config.Database()` behaviour dictionaries: each key is absent or a
bool, matching `dict.get` semantics (note `restrict` is looked up with
default `True` in the source, the others with default `None`). -/
structure DDLConfig where
  createTableIfNotExists : Option Bool := none
  dropTable : Option Bool := none
  createIfNotExists : Option Bool := none
  dropIfExists : Option Bool := none
  restrict : Option Bool := none
  cascade : Option Bool := none
deriving DecidableEq

/-- Truthiness of `behaviours.get(key)` for an absent-or-bool entry. -/
def pyTruthy (o : Option Bool) : Bool := o.getD false

/-- Truthiness of an optional string (Python: `None` and `''` are falsy). -/
def optTruthy : Option String → Bool
  | none => false
  | some s => !(s == "")

/-- The drop-before-create branch shared by both `create_table` methods:
`create_table_behaviours.get('drop_table') and not
create_table_behaviours.get('create_if_not_exists')`. -/
def dropBeforeCreate (cfg : DDLConfig) : Bool :=
  pyTruthy cfg.dropTable && !pyTruthy cfg.createIfNotExists

/-- Python `str(tuple_of_strings)` (1-tuples print with a trailing comma). -/
def pyTupleStr (l : List String) : String :=
  match l with
  | [] => "()"
  | [a] => "(\x27" ++ a ++ "\x27,)"
  | l => "(" ++ sepJoin ", " (l.map (fun s => "\x27" ++ s ++ "\x27")) ++ ")"

/-- Python `dict.get` on the `_reverse_map` of a native enum column. -/
def pyDictGet (d : List (Nat × String)) (k : Nat) : Option String :=
  (d.find? (fun p => p.1 == k)).map (fun p => p.2)

/-- Error-propagating map (Python: the first exception aborts the loop). -/
def mapEx (f : α → Except Err β) : List α → Except Err (List β)
  | [] => .ok []
  | a :: l =>
    match f a with
    | .error e => .error e
    | .ok b =>
      match mapEx f l with
      | .error e => .error e
      | .ok bs => .ok (b :: bs)

/-- The label sequence `data[i] for i in range(1, len(data) + 1)` of an enum
reverse map; a missing key is Python's `KeyError`. -/
def enumLabels (d : List (Nat × String)) : Except Err (List String) :=
  mapEx (fun i =>
    match pyDictGet d (i + 1) with
    | some s => .ok s
    | none => .error .keyError) (List.range d.length)

/-- Single-quote each label and comma-join: `', '.join("'{}'".format(x))`. -/
def quoteJoin (ls : List String) : String :=
  sepJoin ", " (ls.map (fun s => "\x27" ++ s ++ "\x27"))

/-- Python `'({},{})'.format(*args)`: two auto-numbered fields consuming two
positional arguments; fewer than two arguments raises `IndexError`. -/
def pyFormatPair (args : List PyVal) : Except Err String :=
  match args with
  | a :: b :: _ => .ok ("(" ++ pyStr a ++ "," ++ pyStr b ++ ")")
  | _ => .error .indexError

/-- Do date/time/datetime variables back this column
(`variables.DateTimeVariable` / `TimeVariable` / `DateVariable`)? -/
def temporalVariable : Kind → Bool
  | .dateTime | .time | .date => true
  | _ => false

namespace Common

/-- Modelled from the spec: `CommonSQL._null_allowed` lives in
mamba/enterprise/common.py, which is not under src/. Spec section 4.5 says
each column line carries a nullability clause, and the section 8 example
renders a non-nullable Unicode column as `varchar NOT NULL`. -/
def null_allowed (c : Column) : String :=
  if c.nullable then "" else " NOT NULL"

/-- Modelled from the spec: `CommonSQL._parse_unicode` is not under src/.
The section 8 example renders Unicode columns as `varchar`. -/
def parse_unicode (_c : Column) : String := "varchar"

/-- Modelled from the spec: `CommonSQL._parse_float` is not under src/. The
spec only names `float specifics`; rendered as the lower-cased class name. -/
def parse_float (c : Column) : String := strLower c.className

/-- `MySQL._default` (mysql.py lines 322-345): no clause when the value is
`Undef`; a bool default is coerced with `int(...)`; date/time/datetime
values are wrapped in single quotes; the clause is `' default {}'`.
PostgreSQL inherits `CommonSQL._default`, which is not under src/; the
spec (section 4.2) gives the same contract for both backends, so this one
definition serves both. -/
def default_clause (c : Column) : String :=
  let v : MambaDefault :=
    match c.defaultVal with
    | .boolean b => .value (if b then "1" else "0")
    | x => x
  let v : MambaDefault :=
    if temporalVariable c.kind then
      match v with
      | .value s => .value ("\x27" ++ s ++ "\x27")
      | x => x
    else v
  match v with
  | .value s => " default " ++ s
  | _ => ""

end Common

/-- `parse_decimal_size` (mysql.py lines 348-389): a module-level
`singledispatch` on the type of `size`. Lists and 2-tuples pass through,
a string splits on `,` (scale defaults to 2), an int gets scale 2, a float
splits its `str(...)` literal on the decimal point, and the fallback for
any other type returns `column_name.lower()` (not a pair). -/
def parse_decimal_size (size : PyVal) (column_name : String) : Except Err PyVal :=
  match size with
  | .vPair a b => .ok (.vPair a b)
  | .vStr s =>
    match strSplit s ',' with
    | [x] => .ok (.vPair (.vStr x) (.vInt 2))
    | x :: y :: _ => .ok (.vPair (.vStr x) (.vStr y))
    | [] => .error .indexError
  | .vInt n => .ok (.vPair (.vInt n) (.vInt 2))
  | .vFloat lit =>
    match strSplit lit '.' with
    | x :: y :: _ => .ok (.vPair (.vStr x) (.vStr y))
    | _ => .error .indexError
  | .vUndef => .ok (.vStr (strLower column_name))

namespace MySQL

/-- The `_columns_mapping` dict of `MySQL.__init__`. -/
def columns_mapping : Kind → Option String
  | .bool => some "tinyint"
  | .uuid => some "blob"
  | .rawStr => some "blob"
  | .pickle => some "varbinary"
  | .json => some "blob"
  | .dateTime => some "datetime"
  | .date => some "date"
  | .time => some "time"
  | .enum => some "integer"
  | .nativeEnum => some "enum"
  | _ => none

/-- The per-kind handlers registered on `self.parse` in `MySQL.__init__`:
Int, Decimal, Unicode and Float. -/
def registered : Kind → Bool
  | .int | .decimal | .unicode | .float => true
  | _ => false

/-- `MySQL.parse_int`: lower-cased class name, optional `(size)` when the
size is not `Undef`, optional ` UNSIGNED` and ` AUTO_INCREMENT`. -/
def parse_int (c : Column) : String :=
  strLower c.className
    ++ (if c.size == .vUndef then "" else "(" ++ pyStr c.size ++ ")")
    ++ (if c.unsigned then " UNSIGNED" else "")
    ++ (if c.autoIncrement then " AUTO_INCREMENT" else "")

/-- `MySQL.parse_decimal`: normalizes the size with `parse_decimal_size`
and then evaluates `'({},{})'.format(parse_decimal_size(size, name))` —
a two-field format string applied to a single positional argument (the
returned pair is not unpacked), which raises `IndexError`. -/
def parse_decimal (c : Column) : Except Err String :=
  match parse_decimal_size c.size c.className with
  | .error e => .error e
  | .ok r =>
    match pyFormatPair [r] with
    | .error e => .error e
    | .ok inner => .ok (strLower c.className ++ inner)

/-- `MySQL.parse`: `singledispatch` over the column class; registered kinds
go to their handler, everything else to `_columns_mapping.get(cls, 'text')`. -/
def parse (c : Column) : Except Err String :=
  match c.kind with
  | .int => .ok (parse_int c)
  | .decimal => parse_decimal c
  | .unicode => .ok (Common.parse_unicode c)
  | .float => .ok (Common.parse_float c)
  | k => .ok ((columns_mapping k).getD "text")

/-- `MySQL.parse_enum`: requires `variable_class is NativeEnumVariable`,
then renders `` `name` enum('a', 'b', ...)`` from the reverse map, labels
ordered by keys 1..len. -/
def parse_enum (c : Column) : Except Err String :=
  if c.kind = .nativeEnum then
    match enumLabels c.enumMap with
    | .error e => .error e
    | .ok ls => .ok ("`" ++ c.name ++ "` enum(" ++ quoteJoin ls ++ ")")
  else .error .mysqlNotEnumColumn

/-- `MySQL.parse_column`: `` `name` ``, the parsed type, the nullability
clause and the default clause. -/
def parse_column (c : Column) : Except Err String :=
  match parse c with
  | .error e => .error e
  | .ok t => .ok ("`" ++ c.name ++ "` " ++ t ++ Common.null_allowed c ++ Common.default_clause c)

/-- The per-column branch of `MySQL.create_table`: native enum columns go
through `parse_enum`, all others through `parse_column`. -/
def column_entry (c : Column) : Except Err String :=
  if c.kind = .nativeEnum then parse_enum c else parse_column c

/-- `MySQL.engine`: `__engine__`, defaulting to InnoDB. -/
def engine (m : Model) : String := m.engineOpt.getD "InnoDB"

/-- `MySQL.detect_primary_key`: an explicit `__storm_primary__` renders as
`PRIMARY KEY` plus `str(tuple).replace("'", "`")`; otherwise the first
column flagged primary; otherwise `MySQLMissingPrimaryKey`. -/
def detect_primary_key (m : Model) : Except Err String :=
  match m.stormPrimary with
  | some t => .ok ("PRIMARY KEY " ++ replChar (pyTupleStr t) '\x27' '\x60')
  | none =>
    match m.columns.find? (fun c => c.primary) with
    | some c => .ok ("PRIMARY KEY(`" ++ c.name ++ "`)")
    | none => .error .mysqlMissingPrimaryKey

/-- `MySQL.parse_references`: returns `None` (skips everything) unless the
engine is InnoDB, else joins one `INDEX ... FOREIGN KEY ... REFERENCES ...`
fragment per `Reference` attribute, with RESTRICT as the default policy. -/
def parse_references (m : Model) : Option String :=
  if engine m ≠ "InnoDB" then none
  else some (sepJoin ", " (m.references.map (fun r =>
    "INDEX `" ++ r.remoteTable ++ "_ind` (`" ++ r.localKey ++ "`), FOREIGN KEY (`"
      ++ r.localKey ++ "`) REFERENCES `" ++ r.remoteTable ++ "`(`" ++ r.remoteKey
      ++ "`) ON UPDATE " ++ m.onUpdate.getD "RESTRICT"
      ++ " ON DELETE " ++ m.onDelete.getD "RESTRICT")))

/-- The reference slot of `MySQL.create_table`:
`', {}'.format(self.parse_references()) if self.parse_references() else ''`. -/
def refs_fragment (m : Model) : String :=
  if optTruthy (parse_references m) then ", " ++ (parse_references m).getD "" else ""

/-- The `CREATE TABLE ...` header of `MySQL.create_table`, honouring the
`create_table_if_not_exists` behaviour. -/
def header (m : Model) (cfg : DDLConfig) : String :=
  "CREATE TABLE "
    ++ (if pyTruthy cfg.createTableIfNotExists
        then "IF NOT EXISTS `" ++ m.tableName ++ "`"
        else "`" ++ m.tableName ++ "`")
    ++ " (\n"

/-- `MySQL.drop_table`: `DROP TABLE [IF EXISTS ] \`name\``; MySQL never
appends RESTRICT or CASCADE. -/
def drop_table (m : Model) (cfg : DDLConfig) : String :=
  "DROP TABLE " ++ (if pyTruthy cfg.dropIfExists then "IF EXISTS " else "")
    ++ "`" ++ m.tableName ++ "`"

/-- `MySQL.create_table`: header, one indented line per column in
declaration order, the primary key clause, the reference fragment, the
`) ENGINE=... DEFAULT CHARSET=utf8;` trailer, and a preceding drop
statement when `drop_table` is set and `create_if_not_exists` is not. -/
def create_table (m : Model) (cfg : DDLConfig) : Except Err String :=
  match mapEx column_entry m.columns with
  | .error e => .error e
  | .ok entries =>
    match detect_primary_key m with
    | .error e => .error e
    | .ok pk =>
      let q := header m cfg
        ++ joinStr (entries.map (fun e => "  " ++ e ++ ",\n"))
        ++ "  " ++ pk ++ "\n"
        ++ refs_fragment m
        ++ "\n) ENGINE=" ++ engine m ++ " DEFAULT CHARSET=utf8;\n"
      if dropBeforeCreate cfg then .ok (drop_table m cfg ++ ";\n" ++ q) else .ok q

end MySQL

namespace PostgreSQL

/-- The `_columns_mapping` dict of `PostgreSQL.__init__`. -/
def columns_mapping : Kind → Option String
  | .bool => some "bool"
  | .uuid => some "uuid"
  | .rawStr => some "bytea"
  | .pickle => some "bytea"
  | .json => some "json"
  | .dateTime => some "timestamp"
  | .date => some "date"
  | .time => some "time"
  | .timeDelta => some "interval"
  | .enum => some "integer"
  | .decimal => some "decimal"
  | _ => none

/-- The per-kind handlers registered on `self.parse` in
`PostgreSQL.__init__`: Int, Unicode, Float, List and NativeEnum. -/
def registered : Kind → Bool
  | .int | .unicode | .float | .list | .nativeEnum => true
  | _ => false

/-- `PostgreSQL._parse_int`: size and unsigned are ignored; with
`auto_increment` the class name maps to its serial family type. -/
def parse_int (c : Column) : String :=
  if c.autoIncrement then
    match strLower c.className with
    | "smallint" => "smallserial"
    | "bigint" => "bigserial"
    | _ => "serial"
  else strLower c.className

/-- `PostgreSQL._parse_list`: the `array` property parameter is the literal
backend syntax; its absence raises `PostgreSQLMissingArrayDefinition`. -/
def parse_list (c : Column) : Except Err String :=
  match c.array with
  | none => .error .postgresMissingArrayDefinition
  | some a => .ok a

/-- `PostgreSQL.parse`: `singledispatch` over the column class; registered
kinds go to their handler (native enum columns reference their standalone
type name `enum_<col>`), everything else to
`_columns_mapping.get(cls, 'text')`. -/
def parse (c : Column) : Except Err String :=
  match c.kind with
  | .int => .ok (parse_int c)
  | .unicode => .ok (Common.parse_unicode c)
  | .float => .ok (Common.parse_float c)
  | .list => parse_list c
  | .nativeEnum => .ok ("enum_" ++ c.name)
  | k => .ok ((columns_mapping k).getD "text")

/-- `PostgreSQL.parse_enum`: requires `variable_class is
NativeEnumVariable`, then renders the standalone
`CREATE TYPE enum_<col> AS ENUM ('a', 'b', ...);` statement. -/
def parse_enum (c : Column) : Except Err String :=
  if c.kind = .nativeEnum then
    match enumLabels c.enumMap with
    | .error e => .error e
    | .ok ls => .ok ("CREATE TYPE enum_" ++ c.name ++ " AS ENUM (" ++ quoteJoin ls ++ ");\n")
  else .error .postgresNotEnumColumn

/-- `PostgreSQL.parse_column`: unquoted name, the parsed type, the
nullability clause and the default clause. -/
def parse_column (c : Column) : Except Err String :=
  match parse c with
  | .error e => .error e
  | .ok t => .ok (c.name ++ " " ++ t ++ Common.null_allowed c ++ Common.default_clause c)

/-- `PostgreSQL.detect_primary_key`: the named-constraint form
`CONSTRAINT <table>_pkey PRIMARY KEY ...`, from `__storm_primary__` or the
first column flagged primary; otherwise `PostgreSQLMissingPrimaryKey`. -/
def detect_primary_key (m : Model) : Except Err String :=
  match m.stormPrimary with
  | some t => .ok ("CONSTRAINT " ++ m.tableName ++ "_pkey PRIMARY KEY " ++ pyTupleStr t)
  | none =>
    match m.columns.find? (fun c => c.primary) with
    | some c => .ok ("CONSTRAINT " ++ m.tableName ++ "_pkey PRIMARY KEY(" ++ c.name ++ ")")
    | none => .error .postgresMissingPrimaryKey

/-- The column loop of `PostgreSQL.create_table`: every column contributes
a line via `parse_column`; native enum columns additionally queue their
`CREATE TYPE` statement, in declaration order. -/
def column_fold : List Column → Except Err (List String × List String)
  | [] => .ok ([], [])
  | c :: rest =>
    if c.kind = .nativeEnum then
      match parse_enum c with
      | .error e => .error e
      | .ok en =>
        match parse_column c with
        | .error e => .error e
        | .ok line =>
          match column_fold rest with
          | .error e => .error e
          | .ok (es, ls) => .ok (en :: es, line :: ls)
    else
      match parse_column c with
      | .error e => .error e
      | .ok line =>
        match column_fold rest with
        | .error e => .error e
        | .ok (es, ls) => .ok (es, line :: ls)

/-- The `CREATE TABLE ...` header of `PostgreSQL.create_table` (names are
not backquoted on PostgreSQL). -/
def header (m : Model) (cfg : DDLConfig) : String :=
  "CREATE TABLE "
    ++ (if pyTruthy cfg.createTableIfNotExists
        then "IF NOT EXISTS " ++ m.tableName
        else m.tableName)
    ++ " (\n"

/-- `PostgreSQL.drop_table`: `DROP TABLE [IF EXISTS ] <name>[ RESTRICT]
[ CASCADE]`; note `restrict` is read with `.get('restrict', True)`, so
RESTRICT is emitted unless explicitly disabled. -/
def drop_table (m : Model) (cfg : DDLConfig) : String :=
  "DROP TABLE " ++ (if pyTruthy cfg.dropIfExists then "IF EXISTS " else "")
    ++ m.tableName
    ++ (if cfg.restrict.getD true then " RESTRICT" else "")
    ++ (if cfg.cascade.getD false then " CASCADE" else "")

/-- `PostgreSQL.create_table`: the queued `CREATE TYPE` enum statements are
prepended to the table statement; a drop statement precedes everything when
`drop_table` is set and `create_if_not_exists` is not. -/
def create_table (m : Model) (cfg : DDLConfig) : Except Err String :=
  match column_fold m.columns with
  | .error e => .error e
  | .ok (enums, lines) =>
    match detect_primary_key m with
    | .error e => .error e
    | .ok pk =>
      let q := joinStr enums
        ++ (header m cfg
          ++ joinStr (lines.map (fun e => "  " ++ e ++ ",\n"))
          ++ "  " ++ pk ++ "\n);\n")
      if dropBeforeCreate cfg then .ok (drop_table m cfg ++ ";\n" ++ q) else .ok q

end PostgreSQL

/-- The drop statement shape named by the spec:
`DROP TABLE [IF EXISTS] <name> [RESTRICT|CASCADE]`, each optional clause
controlled by one boolean. -/
def drop_spec (name : String) (ifExists restr casc : Bool) : String :=
  "DROP TABLE " ++ (if ifExists then "IF EXISTS " else "") ++ name
    ++ (if restr then " RESTRICT" else "")
    ++ (if casc then " CASCADE" else "")

end Mamba

namespace Mamba

/-! Sample columns and models used by the concrete check theorems. -/

/-- An auto-increment integer primary key column. -/
def colId : Column := { name := "id", className := "Int", kind := .int, autoIncrement := true, primary := true }

/-- A non-nullable unicode column. -/
def colEmail : Column := { name := "email", className := "Unicode", kind := .unicode, nullable := false }

/-- A native enum column with the value mapping 1 to a, 2 to b, 3 to c. -/
def colMood : Column := { name := "mood", className := "NativeEnum", kind := .nativeEnum, enumMap := [(1, "a"), (2, "b"), (3, "c")] }

/-- A decimal column with size given as the pair (10, 2). -/
def colPrice : Column := { name := "price", className := "Decimal", kind := .decimal, size := .vPair (.vInt 10) (.vInt 2) }

/-- A List (array) column without an array definition. -/
def colSquares : Column := { name := "squares", className := "List", kind := .list }

/-- A List (array) column with an explicit array definition. -/
def colSquaresArr : Column := { name := "squares", className := "List", kind := .list, array := some "integer[3][3]" }

/-- A TimeDelta column (no MySQL handler, no MySQL mapping entry). -/
def colTd : Column := { name := "lapse", className := "TimeDelta", kind := .timeDelta }

/-- A column of a property class unknown to both adapters. -/
def colOther : Column := { name := "mystery", className := "Mystery", kind := .other }

/-- A bool column with default True. -/
def colBoolDef : Column := { name := "active", className := "Bool", kind := .bool, defaultVal := .boolean true }

/-- A date column with a default date. -/
def colDateDef : Column := { name := "since", className := "Date", kind := .date, defaultVal := .value "2012-01-01" }

/-- A unicode column with no default. -/
def colNoDef : Column := { name := "note", className := "Unicode", kind := .unicode }

/-- A model with a single primary key column and one plain column. -/
def mdlUser : Model := { tableName := "user", columns := [colId, colEmail] }

/-- A model with a primary key column and a native enum column. -/
def mdlEnum : Model := { tableName := "p", columns := [colId, colMood] }

/-- A model with a primary key column and a decimal column. -/
def mdlDec : Model := { tableName := "t", columns := [colId, colPrice] }

/-- A model with a decimal column and no primary key at all. -/
def mdlDec0 : Model := { tableName := "bad", columns := [colPrice] }

/-- A model with one plain column and no primary key at all. -/
def mdlW : Model := { tableName := "w", columns := [{ name := "a", className := "Unicode", kind := .unicode }] }

/-- A model on the MyISAM engine carrying a reference. -/
def mdlMyISAM : Model :=
  { tableName := "log", columns := [colId], engineOpt := some "MyISAM",
    references := [{ localKey := "user_id", remoteKey := "id", remoteTable := "user" }] }

/-! General helper lemmas. -/

/-- Two string concatenations whose left parts start with different
characters are different. -/
theorem ne_of_head (a b x y : String) (ca cb : Char) (la lb : List Char)
    (ha : a.data = ca :: la) (hb : b.data = cb :: lb) (hne : ca ≠ cb) :
    a ++ x ≠ b ++ y := by
  intro h
  have h2 := congrArg String.data h
  rw [String.data_append, String.data_append, ha, hb] at h2
  simp [List.cons_append] at h2
  exact hne h2.1

/-- `joinStr` distributes over list concatenation. -/
theorem joinStr_append (a b : List String) : joinStr (a ++ b) = joinStr a ++ joinStr b := by
  induction a with
  | nil => simp [joinStr, String.empty_append]
  | cons s l ih => simp [joinStr, ih, String.append_assoc]

/-- If filtering a list yields a singleton, `find?` yields that element. -/
theorem find_of_filter_singleton {p : α → Bool} :
    ∀ (l : List α) (a : α), l.filter p = [a] → l.find? p = some a := by
  intro l
  induction l with
  | nil => intro a h; simp at h
  | cons b l ih =>
    intro a h
    by_cases hb : p b
    · simp [List.filter_cons, hb] at h
      cases h.1
      simp [List.find?_cons, hb]
    · simp [List.filter_cons, hb] at h
      simp [List.find?_cons, hb]
      exact ih a h

/-- A successful `mapEx` relates inputs to outputs pointwise. -/
theorem mapEx_forall2 {P : α → β → Prop} {f : α → Except Err β}
    (hf : ∀ c e, f c = .ok e → P c e) :
    ∀ l out, mapEx f l = .ok out → List.Forall₂ P l out := by
  intro l
  induction l with
  | nil => intro out h; simp [mapEx] at h; subst h; exact List.Forall₂.nil
  | cons a l ih =>
    intro out h
    cases hfa : f a with
    | error e => simp [mapEx, hfa] at h
    | ok b =>
      cases hrest : mapEx f l with
      | error e => simp [mapEx, hfa, hrest] at h
      | ok bs =>
        simp [mapEx, hfa, hrest] at h
        subst h
        exact List.Forall₂.cons (hf a b hfa) (ih bs hrest)

/-- Extending the right side of a concatenation keeps its head. -/
theorem pre_extend {p a : String} (h : ∃ r, a = p ++ r) (b : String) :
    ∃ r, a ++ b = p ++ r := by
  obtain ⟨r, rfl⟩ := h
  exact ⟨r ++ b, String.append_assoc p r b⟩

/-- The MySQL drop statement starts with the DROP TABLE keyword. -/
theorem mysql_drop_head (m : Model) (cfg : DDLConfig) :
    ∃ r, MySQL.drop_table m cfg = "DROP TABLE " ++ r :=
  ⟨(if pyTruthy cfg.dropIfExists then "IF EXISTS " else "") ++ ("`" ++ (m.tableName ++ "`")),
    by simp [MySQL.drop_table, String.append_assoc]⟩

/-- The PostgreSQL drop statement starts with the DROP TABLE keyword. -/
theorem pg_drop_head (m : Model) (cfg : DDLConfig) :
    ∃ r, PostgreSQL.drop_table m cfg = "DROP TABLE " ++ r :=
  ⟨(if pyTruthy cfg.dropIfExists then "IF EXISTS " else "")
      ++ (m.tableName
        ++ ((if cfg.restrict.getD true then " RESTRICT" else "")
          ++ (if cfg.cascade.getD false then " CASCADE" else ""))),
    by simp [PostgreSQL.drop_table, String.append_assoc]⟩

/-- The MySQL create header starts with the CREATE TABLE keyword. -/
theorem mysql_header_head (m : Model) (cfg : DDLConfig) :
    ∃ r, MySQL.header m cfg = "CREATE TABLE " ++ r :=
  ⟨(if pyTruthy cfg.createTableIfNotExists
      then "IF NOT EXISTS `" ++ m.tableName ++ "`"
      else "`" ++ m.tableName ++ "`") ++ " (\n",
    by simp [MySQL.header, String.append_assoc]⟩

/-- The PostgreSQL create header starts with the CREATE TABLE keyword. -/
theorem pg_header_head (m : Model) (cfg : DDLConfig) :
    ∃ r, PostgreSQL.header m cfg = "CREATE TABLE " ++ r :=
  ⟨(if pyTruthy cfg.createTableIfNotExists
      then "IF NOT EXISTS " ++ m.tableName
      else m.tableName) ++ " (\n",
    by simp [PostgreSQL.header, String.append_assoc]⟩

/-- Every successful PostgreSQL enum declaration starts with CREATE TYPE. -/
theorem pg_enum_head {c : Column} {e : String} (h : PostgreSQL.parse_enum c = .ok e) :
    ∃ r, e = "CREATE TYPE " ++ r := by
  unfold PostgreSQL.parse_enum at h
  by_cases hk : c.kind = .nativeEnum
  · rw [if_pos hk] at h
    cases hl : enumLabels c.enumMap with
    | error e2 => rw [hl] at h; exact Except.noConfusion h
    | ok ls =>
      rw [hl] at h
      injection h with h
      refine ⟨"enum_" ++ (c.name ++ (" AS ENUM (" ++ (quoteJoin ls ++ ");\n"))), ?_⟩
      rw [← h]
      simp only [← String.append_assoc]
      rfl
  · rw [if_neg hk] at h
    exact Except.noConfusion h

/-- Every string in the enum list produced by the PostgreSQL column loop
starts with CREATE TYPE. -/
theorem pg_fold_enums_shape :
    ∀ (l : List Column) (es ls : List String),
      PostgreSQL.column_fold l = .ok (es, ls) → ∀ e ∈ es, ∃ r, e = "CREATE TYPE " ++ r := by
  intro l
  induction l with
  | nil =>
    intro es ls h e he
    simp [PostgreSQL.column_fold] at h
    rw [h.1] at he
    simp at he
  | cons c rest ih =>
    intro es ls h e he
    by_cases hk : c.kind = .nativeEnum
    · rw [PostgreSQL.column_fold, if_pos hk] at h
      cases hen : PostgreSQL.parse_enum c with
      | error e2 => rw [hen] at h; exact Except.noConfusion h
      | ok en =>
        rw [hen] at h
        cases hline : PostgreSQL.parse_column c with
        | error e2 => rw [hline] at h; exact Except.noConfusion h
        | ok line =>
          rw [hline] at h
          cases hrest : PostgreSQL.column_fold rest with
          | error e2 => rw [hrest] at h; exact Except.noConfusion h
          | ok p =>
            obtain ⟨es2, ls2⟩ := p
            rw [hrest] at h
            injection h with h
            injection h with h1 h2
            rw [← h1] at he
            cases he with
            | head => exact pg_enum_head hen
            | tail _ hmem => exact ih es2 ls2 hrest e hmem
    · rw [PostgreSQL.column_fold, if_neg hk] at h
      cases hline : PostgreSQL.parse_column c with
      | error e2 => rw [hline] at h; exact Except.noConfusion h
      | ok line =>
        rw [hline] at h
        cases hrest : PostgreSQL.column_fold rest with
        | error e2 => rw [hrest] at h; exact Except.noConfusion h
        | ok p =>
          obtain ⟨es2, ls2⟩ := p
          rw [hrest] at h
          injection h with h
          injection h with h1 h2
          rw [← h1] at he
          exact ih es2 ls2 hrest e he

/-- A successful MySQL `create_table` decomposed into its parts: the
optional drop statement, the header, the column lines, the primary key
clause, the reference slot and the engine trailer. -/
theorem mysql_create_ok (m : Model) (cfg : DDLConfig) (entries : List String) (pk : String)
    (hE : mapEx MySQL.column_entry m.columns = .ok entries)
    (hP : MySQL.detect_primary_key m = .ok pk) :
    MySQL.create_table m cfg =
      .ok ((if dropBeforeCreate cfg then MySQL.drop_table m cfg ++ ";\n" else "")
        ++ (MySQL.header m cfg
          ++ joinStr (entries.map (fun e => "  " ++ e ++ ",\n"))
          ++ "  " ++ pk ++ "\n"
          ++ MySQL.refs_fragment m
          ++ "\n) ENGINE=" ++ MySQL.engine m ++ " DEFAULT CHARSET=utf8;\n")) := by
  unfold MySQL.create_table
  rw [hE, hP]
  by_cases hd : dropBeforeCreate cfg <;>
    simp [hd, String.append_assoc, String.empty_append]

/-- A successful PostgreSQL `create_table` decomposed into its parts: the
optional drop statement, the queued enum type declarations, the header,
the column lines and the primary key clause. -/
theorem pg_create_ok (m : Model) (cfg : DDLConfig) (enums lines : List String) (pk : String)
    (hE : PostgreSQL.column_fold m.columns = .ok (enums, lines))
    (hP : PostgreSQL.detect_primary_key m = .ok pk) :
    PostgreSQL.create_table m cfg =
      .ok ((if dropBeforeCreate cfg then PostgreSQL.drop_table m cfg ++ ";\n" else "")
        ++ (joinStr enums
          ++ (PostgreSQL.header m cfg
            ++ joinStr (lines.map (fun e => "  " ++ e ++ ",\n"))
            ++ "  " ++ pk ++ "\n);\n"))) := by
  unfold PostgreSQL.create_table
  rw [hE, hP]
  by_cases hd : dropBeforeCreate cfg <;>
    simp [hd, String.append_assoc, String.empty_append]

/-! Claim theorems. -/


/-- Claim C1: the four decimal size encodings (10,2), "10,2", 10 and 10.2
all normalize to a pair rendering as precision 10, scale 2 — but
`parse_decimal` does not render `decimal(10,2)`: the inner
`'({},{})'.format(...)` receives the pair as a single argument for two
fields and raises `IndexError`, contradicting the method's own docstring. -/
theorem claim_c1_decimal_size_normalization :
    parse_decimal_size (.vPair (.vInt 10) (.vInt 2)) "Decimal" = .ok (.vPair (.vInt 10) (.vInt 2))
    ∧ parse_decimal_size (.vStr "10,2") "Decimal" = .ok (.vPair (.vStr "10") (.vStr "2"))
    ∧ parse_decimal_size (.vInt 10) "Decimal" = .ok (.vPair (.vInt 10) (.vInt 2))
    ∧ parse_decimal_size (.vFloat "10.2") "Decimal" = .ok (.vPair (.vStr "10") (.vStr "2"))
    ∧ (parse_decimal_size (.vPair (.vInt 10) (.vInt 2)) "Decimal").map pairRender = .ok (some ("10", "2"))
    ∧ (parse_decimal_size (.vStr "10,2") "Decimal").map pairRender = .ok (some ("10", "2"))
    ∧ (parse_decimal_size (.vInt 10) "Decimal").map pairRender = .ok (some ("10", "2"))
    ∧ (parse_decimal_size (.vFloat "10.2") "Decimal").map pairRender = .ok (some ("10", "2"))
    ∧ MySQL.parse_decimal colPrice = .error .indexError := by
  decide

/-- Claim C2 (counterexample): with a decimal column and no primary key,
`MySQL.create_table` raises `IndexError` from the decimal formatting bug,
not the distinguished missing-primary-key error the claim names. -/
theorem claim_c2_counterexample :
    MySQL.create_table mdlDec0 {} = .error .indexError
    ∧ Err.indexError ≠ Err.mysqlMissingPrimaryKey := by
  exact ⟨by decide, by decide⟩

/-- Claim C2 (amended): for a model with no explicit compound key and no
column flagged primary, both primary key resolvers raise the backend's
distinguished missing-primary-key error, and — provided every column
fragment translates — `create_table` raises it too, producing no
statement. -/
theorem claim_c2_missing_primary_key (m : Model) (cfg : DDLConfig)
    (entries : List String) (el : List String × List String)
    (h1 : m.stormPrimary = none) (h2 : ∀ c ∈ m.columns, c.primary = false) :
    MySQL.detect_primary_key m = .error .mysqlMissingPrimaryKey
    ∧ PostgreSQL.detect_primary_key m = .error .postgresMissingPrimaryKey
    ∧ (mapEx MySQL.column_entry m.columns = .ok entries →
        MySQL.create_table m cfg = .error .mysqlMissingPrimaryKey)
    ∧ (PostgreSQL.column_fold m.columns = .ok el →
        PostgreSQL.create_table m cfg = .error .postgresMissingPrimaryKey) := by
  have hf : m.columns.find? (fun c => c.primary) = none := by
    rw [List.find?_eq_none]
    intro x hx
    simp [h2 x hx]
  have hm : MySQL.detect_primary_key m = .error .mysqlMissingPrimaryKey := by
    simp [MySQL.detect_primary_key, h1, hf]
  have hp : PostgreSQL.detect_primary_key m = .error .postgresMissingPrimaryKey := by
    simp [PostgreSQL.detect_primary_key, h1, hf]
  refine ⟨hm, hp, ?_, ?_⟩
  · intro he
    simp [MySQL.create_table, he, hm]
  · intro he
    obtain ⟨es, ls⟩ := el
    simp [PostgreSQL.create_table, he, hp]

/-- Claim C2 (check): the amended theorem at a concrete model with one
translating column and no primary key. -/
theorem claim_c2_missing_primary_key_check :
    MySQL.create_table mdlW {} = .error .mysqlMissingPrimaryKey
    ∧ PostgreSQL.create_table mdlW {} = .error .postgresMissingPrimaryKey :=
  ⟨(claim_c2_missing_primary_key mdlW {} ["`a` varchar"] ([], ["a varchar"])
      rfl (by decide)).2.2.1 (by decide),
   (claim_c2_missing_primary_key mdlW {} ["`a` varchar"] ([], ["a varchar"])
      rfl (by decide)).2.2.2 (by decide)⟩

/-- Claim C7 (counterexample): with a fresh configuration that does not
request RESTRICT (`restrict` absent), the PostgreSQL drop statement still
contains the RESTRICT clause, because the source reads the toggle with
`.get('restrict', True)`. -/
theorem claim_c7_counterexample :
    PostgreSQL.drop_table { tableName := "user", columns := [] } {} = "DROP TABLE user" ++ " RESTRICT"
    ∧ ({} : DDLConfig).restrict = none := by
  exact ⟨by decide, rfl⟩

/-- Claim C7 (amended): both drop builders render the spec's
`DROP TABLE [IF EXISTS] <name> [RESTRICT|CASCADE]` shape; MySQL never
passes RESTRICT or CASCADE, while PostgreSQL emits RESTRICT by default
(unless `restrict` is explicitly disabled) and CASCADE only on request. -/
theorem claim_c7_drop_table_rendering (m : Model) (cfg : DDLConfig) :
    MySQL.drop_table m cfg = drop_spec ("`" ++ m.tableName ++ "`") (pyTruthy cfg.dropIfExists) false false
    ∧ PostgreSQL.drop_table m cfg =
        drop_spec m.tableName (pyTruthy cfg.dropIfExists) (cfg.restrict.getD true) (cfg.cascade.getD false) := by
  constructor
  · simp [MySQL.drop_table, drop_spec, String.append_assoc, String.append_empty]
  · simp [PostgreSQL.drop_table, drop_spec, String.append_assoc]

/-- Claim C8 (counterexample): on MySQL a List column does not fail with a
MissingArrayDefinition-class error; it silently falls through to the
generic `text` type. -/
theorem claim_c8_counterexample :
    MySQL.parse colSquares = .ok "text" ∧ (MySQL.parse colSquares).isOk = true := by
  decide

/-- Claim C8 (amended): on PostgreSQL a List column without an `array`
specification fails with `PostgreSQLMissingArrayDefinition` and with one
translates to the given literal; on MySQL (no array support) a List column
falls back to the generic `text` type instead of failing. -/
theorem claim_c8_array_definition (c : Column) (h : c.kind = .list) :
    (c.array = none → PostgreSQL.parse c = .error .postgresMissingArrayDefinition)
    ∧ (∀ s, c.array = some s → PostgreSQL.parse c = .ok s)
    ∧ MySQL.parse c = .ok "text" := by
  refine ⟨?_, ?_, ?_⟩
  · intro ha
    simp [PostgreSQL.parse, h, PostgreSQL.parse_list, ha]
  · intro s ha
    simp [PostgreSQL.parse, h, PostgreSQL.parse_list, ha]
  · simp [MySQL.parse, h, MySQL.columns_mapping]

/-- Claim C8 (check): the amended theorem at concrete List columns. -/
theorem claim_c8_array_definition_check :
    PostgreSQL.parse colSquares = .error .postgresMissingArrayDefinition
    ∧ PostgreSQL.parse colSquaresArr = .ok "integer[3][3]"
    ∧ MySQL.parse colSquares = .ok "text" :=
  ⟨(claim_c8_array_definition colSquares (by decide)).1 (by decide),
   (claim_c8_array_definition colSquaresArr (by decide)).2.1 "integer[3][3]" (by decide),
   (claim_c8_array_definition colSquares (by decide)).2.2⟩

/-- Claim C9: a column whose kind has no registered handler and no entry in
the backend's column type mapping parses to the generic `text` token and
never raises, on both backends. -/
theorem claim_c9_fallback_text (c : Column) :
    (MySQL.registered c.kind = false → MySQL.columns_mapping c.kind = none →
      MySQL.parse c = .ok "text")
    ∧ (PostgreSQL.registered c.kind = false → PostgreSQL.columns_mapping c.kind = none →
      PostgreSQL.parse c = .ok "text") := by
  constructor
  · intro h1 h2
    cases hk : c.kind <;>
      simp_all [MySQL.parse, MySQL.registered, MySQL.columns_mapping]
  · intro h1 h2
    cases hk : c.kind <;>
      simp_all [PostgreSQL.parse, PostgreSQL.registered, PostgreSQL.columns_mapping]

/-- Claim C9 (check): the fallback theorem at a TimeDelta column on MySQL
and an unknown-kind column on PostgreSQL. -/
theorem claim_c9_fallback_text_check :
    MySQL.parse colTd = .ok "text" ∧ PostgreSQL.parse colOther = .ok "text" :=
  ⟨(claim_c9_fallback_text colTd).1 (by decide) (by decide),
   (claim_c9_fallback_text colOther).2 (by decide) (by decide)⟩

/-- Claim C10: the default encoder emits no clause without a default,
coerces bool defaults to the 0/1 literals, single-quotes date/time/datetime
defaults, renders any other value as its natural string form, and prefixes
every emitted clause with one space and the keyword `default`. -/
theorem claim_c10_default_encoder (c : Column) (b : Bool) (s : String) :
    (c.defaultVal = .undef → Common.default_clause c = "")
    ∧ (temporalVariable c.kind = false → c.defaultVal = .boolean b →
        Common.default_clause c = " default " ++ (if b then "1" else "0"))
    ∧ (temporalVariable c.kind = true → c.defaultVal = .value s →
        Common.default_clause c = " default " ++ ("\x27" ++ s ++ "\x27"))
    ∧ (temporalVariable c.kind = false → c.defaultVal = .value s →
        Common.default_clause c = " default " ++ s)
    ∧ (c.defaultVal ≠ .undef → ∃ r, Common.default_clause c = " default " ++ r) := by
  refine ⟨?_, ?_, ?_, ?_, ?_⟩
  · intro h
    simp [Common.default_clause, h]
  · intro ht h
    simp [Common.default_clause, h, ht]
  · intro ht h
    simp [Common.default_clause, h, ht]
  · intro ht h
    simp [Common.default_clause, h, ht]
  · intro h
    cases hd : c.defaultVal with
    | undef => exact absurd hd h
    | boolean b2 =>
      by_cases ht : temporalVariable c.kind
      · exact ⟨"\x27" ++ (if b2 then "1" else "0") ++ "\x27",
          by simp [Common.default_clause, hd, ht]⟩
      · exact ⟨(if b2 then "1" else "0"), by simp [Common.default_clause, hd, ht]⟩
    | value s2 =>
      by_cases ht : temporalVariable c.kind
      · exact ⟨"\x27" ++ s2 ++ "\x27", by simp [Common.default_clause, hd, ht]⟩
      · exact ⟨s2, by simp [Common.default_clause, hd, ht]⟩

/-- Claim C10 (check): the encoder theorem at a bool default, a date
default and a missing default. -/
theorem claim_c10_default_encoder_check :
    Common.default_clause colBoolDef = " default " ++ (if true then "1" else "0")
    ∧ Common.default_clause colDateDef = " default " ++ ("\x27" ++ "2012-01-01" ++ "\x27")
    ∧ Common.default_clause colNoDef = "" :=
  ⟨(claim_c10_default_encoder colBoolDef true "x").2.1 (by decide) (by decide),
   (claim_c10_default_encoder colDateDef true "2012-01-01").2.2.1 (by decide) (by decide),
   (claim_c10_default_encoder colNoDef true "x").1 (by decide)⟩

/-- The configuration used by the drop-before-create check: drop_table set,
create_if_not_exists unset. -/
def cfgOn : DDLConfig := { dropTable := some true }

/-- Claim C5: a successful create statement starts with a DROP TABLE
statement exactly when the drop-before-create toggle is set and
create-if-not-exists is not; in that case the drop statement textually
precedes the CREATE TABLE text, on both backends. -/
theorem claim_c5_drop_before_create (m : Model) (cfg : DDLConfig) (q : String) :
    (MySQL.create_table m cfg = .ok q →
      ((∃ r, q = "DROP TABLE " ++ r) ↔ dropBeforeCreate cfg = true)
      ∧ (dropBeforeCreate cfg = true →
          ∃ r, q = MySQL.drop_table m cfg ++ (";\n" ++ ("CREATE TABLE " ++ r))))
    ∧ (PostgreSQL.create_table m cfg = .ok q →
      ((∃ r, q = "DROP TABLE " ++ r) ↔ dropBeforeCreate cfg = true)
      ∧ (dropBeforeCreate cfg = true →
          ∃ u v, q = PostgreSQL.drop_table m cfg ++ (";\n" ++ (u ++ ("CREATE TABLE " ++ v))))) := by
  constructor
  · intro hq
    cases hE : mapEx MySQL.column_entry m.columns with
    | error e => simp [MySQL.create_table, hE] at hq
    | ok entries =>
      cases hP : MySQL.detect_primary_key m with
      | error e => simp [MySQL.create_table, hE, hP] at hq
      | ok pk =>
        rw [mysql_create_ok m cfg entries pk hE hP] at hq
        injection hq with hq
        subst hq
        have hb : ∃ r, MySQL.header m cfg
            ++ joinStr (entries.map (fun e => "  " ++ e ++ ",\n"))
            ++ "  " ++ pk ++ "\n"
            ++ MySQL.refs_fragment m
            ++ "\n) ENGINE=" ++ MySQL.engine m ++ " DEFAULT CHARSET=utf8;\n"
            = "CREATE TABLE " ++ r :=
          pre_extend (pre_extend (pre_extend (pre_extend (pre_extend (pre_extend
            (pre_extend (pre_extend (mysql_header_head m cfg) _) _) _) _) _) _) _) _
        by_cases hd : dropBeforeCreate cfg = true
        · rw [if_pos hd]
          refine ⟨⟨fun _ => hd, fun _ => ?_⟩, fun _ => ?_⟩
          · exact pre_extend (pre_extend (mysql_drop_head m cfg) ";\n") _
          · obtain ⟨rb, hrb⟩ := hb
            refine ⟨rb, ?_⟩
            rw [hrb]
            simp only [String.append_assoc]
        · rw [if_neg hd, String.empty_append]
          refine ⟨⟨?_, fun hc => absurd hc hd⟩, fun hc => absurd hc hd⟩
          rintro ⟨r, hr⟩
          obtain ⟨rb, hrb⟩ := hb
          rw [hrb] at hr
          exact absurd hr (ne_of_head "CREATE TABLE " "DROP TABLE " rb r 'C' 'D'
            "REATE TABLE ".data "ROP TABLE ".data rfl rfl (by decide))
  · intro hq
    cases hE : PostgreSQL.column_fold m.columns with
    | error e => simp [PostgreSQL.create_table, hE] at hq
    | ok p =>
      obtain ⟨enums, lines⟩ := p
      cases hP : PostgreSQL.detect_primary_key m with
      | error e => simp [PostgreSQL.create_table, hE, hP] at hq
      | ok pk =>
        rw [pg_create_ok m cfg enums lines pk hE hP] at hq
        injection hq with hq
        subst hq
        have hin : ∃ r, PostgreSQL.header m cfg
            ++ joinStr (lines.map (fun e => "  " ++ e ++ ",\n"))
            ++ "  " ++ pk ++ "\n);\n"
            = "CREATE TABLE " ++ r :=
          pre_extend (pre_extend (pre_extend (pre_extend (pg_header_head m cfg) _) _) _) _
        have hbase : (∃ r, joinStr enums
              ++ (PostgreSQL.header m cfg
                ++ joinStr (lines.map (fun e => "  " ++ e ++ ",\n"))
                ++ "  " ++ pk ++ "\n);\n")
              = "CREATE TABLE " ++ r)
            ∨ (∃ r, joinStr enums
              ++ (PostgreSQL.header m cfg
                ++ joinStr (lines.map (fun e => "  " ++ e ++ ",\n"))
                ++ "  " ++ pk ++ "\n);\n")
              = "CREATE TYPE " ++ r) := by
          cases henums : enums with
          | nil =>
            left
            obtain ⟨r, hr⟩ := hin
            exact ⟨r, by rw [joinStr, String.empty_append, hr]⟩
          | cons e0 es0 =>
            right
            obtain ⟨r0, hr0⟩ := pg_fold_enums_shape m.columns enums lines hE e0
              (by rw [henums]; exact List.mem_cons_self e0 es0)
            rw [joinStr, hr0]
            exact pre_extend (pre_extend ⟨r0, rfl⟩ (joinStr es0)) _
        by_cases hd : dropBeforeCreate cfg = true
        · rw [if_pos hd]
          refine ⟨⟨fun _ => hd, fun _ => ?_⟩, fun _ => ?_⟩
          · exact pre_extend (pre_extend (pg_drop_head m cfg) ";\n") _
          · obtain ⟨rv, hrv⟩ := hin
            refine ⟨joinStr enums, rv, ?_⟩
            rw [hrv]
            simp only [String.append_assoc]
        · rw [if_neg hd, String.empty_append]
          refine ⟨⟨?_, fun hc => absurd hc hd⟩, fun hc => absurd hc hd⟩
          rintro ⟨r, hr⟩
          cases hbase with
          | inl hL =>
            obtain ⟨rb, hrb⟩ := hL
            rw [hrb] at hr
            exact absurd hr (ne_of_head "CREATE TABLE " "DROP TABLE " rb r 'C' 'D'
              "REATE TABLE ".data "ROP TABLE ".data rfl rfl (by decide))
          | inr hR =>
            obtain ⟨rb, hrb⟩ := hR
            rw [hrb] at hr
            exact absurd hr (ne_of_head "CREATE TYPE " "DROP TABLE " rb r 'C' 'D'
              "REATE TYPE ".data "ROP TABLE ".data rfl rfl (by decide))

/-- Claim C5 (check): the toggle theorem at a concrete model with the
drop-before-create toggle on. -/
theorem claim_c5_drop_before_create_check :
    ((∃ r, "DROP TABLE `user`;\nCREATE TABLE `user` (\n  `id` int AUTO_INCREMENT,\n  `email` varchar NOT NULL,\n  PRIMARY KEY(`id`)\n\n) ENGINE=InnoDB DEFAULT CHARSET=utf8;\n" = "DROP TABLE " ++ r)
      ↔ dropBeforeCreate cfgOn = true)
    ∧ (dropBeforeCreate cfgOn = true →
        ∃ r, "DROP TABLE `user`;\nCREATE TABLE `user` (\n  `id` int AUTO_INCREMENT,\n  `email` varchar NOT NULL,\n  PRIMARY KEY(`id`)\n\n) ENGINE=InnoDB DEFAULT CHARSET=utf8;\n"
          = MySQL.drop_table mdlUser cfgOn ++ (";\n" ++ ("CREATE TABLE " ++ r))) :=
  (claim_c5_drop_before_create mdlUser cfgOn
    "DROP TABLE `user`;\nCREATE TABLE `user` (\n  `id` int AUTO_INCREMENT,\n  `email` varchar NOT NULL,\n  PRIMARY KEY(`id`)\n\n) ENGINE=InnoDB DEFAULT CHARSET=utf8;\n").1
    (by decide)

/-- Claim C6: when the MySQL engine is anything other than InnoDB,
`parse_references` returns nothing, the reference slot of the create
statement is empty, and the create output does not depend on the model's
RelationshipDescriptors at all — so no FOREIGN KEY clause is emitted even
when references are present. -/
theorem claim_c6_engine_skips_references (m : Model) (cfg : DDLConfig) (refs : List RefDescr)
    (h : MySQL.engine m ≠ "InnoDB") :
    MySQL.parse_references m = none
    ∧ MySQL.refs_fragment m = ""
    ∧ MySQL.create_table { m with references := refs } cfg
        = MySQL.create_table { m with references := [] } cfg := by
  have h2 : ∀ rs : List RefDescr, MySQL.parse_references { m with references := rs } = none := by
    intro rs
    have he : MySQL.engine { m with references := rs } = MySQL.engine m := rfl
    simp [MySQL.parse_references, he, h]
  have hm : MySQL.parse_references m = none := h2 m.references
  have hf : ∀ rs : List RefDescr, MySQL.refs_fragment { m with references := rs } = "" := by
    intro rs
    simp [MySQL.refs_fragment, h2 rs, optTruthy]
  refine ⟨hm, ?_, ?_⟩
  · simp [MySQL.refs_fragment, hm, optTruthy]
  · unfold MySQL.create_table
    rw [show ({ m with references := refs } : Model).columns = m.columns from rfl,
      show ({ m with references := [] } : Model).columns = m.columns from rfl,
      show MySQL.detect_primary_key { m with references := refs }
        = MySQL.detect_primary_key m from rfl,
      show MySQL.detect_primary_key { m with references := [] }
        = MySQL.detect_primary_key m from rfl,
      show MySQL.header { m with references := refs } cfg = MySQL.header m cfg from rfl,
      show MySQL.header { m with references := [] } cfg = MySQL.header m cfg from rfl,
      show MySQL.engine { m with references := refs } = MySQL.engine m from rfl,
      show MySQL.engine { m with references := [] } = MySQL.engine m from rfl,
      show MySQL.drop_table { m with references := refs } cfg = MySQL.drop_table m cfg from rfl,
      show MySQL.drop_table { m with references := [] } cfg = MySQL.drop_table m cfg from rfl,
      hf refs, hf []]

/-- Claim C6 (check): the theorem at a MyISAM model carrying a reference. -/
theorem claim_c6_engine_skips_references_check :
    MySQL.parse_references mdlMyISAM = none
    ∧ MySQL.refs_fragment mdlMyISAM = ""
    ∧ MySQL.create_table { mdlMyISAM with references := mdlMyISAM.references } {}
        = MySQL.create_table { mdlMyISAM with references := [] } {} :=
  claim_c6_engine_skips_references mdlMyISAM {} mdlMyISAM.references (by decide)

/-- Every successful MySQL column entry (plain or enum) starts with the
backquoted column name. -/
theorem mysql_entry_shape (c : Column) (e : String) (h : MySQL.column_entry c = .ok e) :
    ∃ r, e = "`" ++ c.name ++ "` " ++ r := by
  unfold MySQL.column_entry at h
  by_cases hk : c.kind = .nativeEnum
  · rw [if_pos hk] at h
    unfold MySQL.parse_enum at h
    rw [if_pos hk] at h
    cases hl : enumLabels c.enumMap with
    | error e2 => rw [hl] at h; exact Except.noConfusion h
    | ok ls =>
      rw [hl] at h
      injection h with h
      refine ⟨"enum(" ++ (quoteJoin ls ++ ")"), ?_⟩
      rw [← h]
      rw [show ("` enum(" : String) = "` " ++ "enum(" from rfl]
      simp only [String.append_assoc]
  · rw [if_neg hk] at h
    unfold MySQL.parse_column at h
    cases hp : MySQL.parse c with
    | error e2 => rw [hp] at h; exact Except.noConfusion h
    | ok t =>
      rw [hp] at h
      injection h with h
      refine ⟨t ++ (Common.null_allowed c ++ Common.default_clause c), ?_⟩
      rw [← h]
      simp only [String.append_assoc]

/-- Every successful PostgreSQL column line starts with the column name. -/
theorem pg_line_shape (c : Column) (e : String) (h : PostgreSQL.parse_column c = .ok e) :
    ∃ r, e = c.name ++ " " ++ r := by
  unfold PostgreSQL.parse_column at h
  cases hp : PostgreSQL.parse c with
  | error e2 => rw [hp] at h; exact Except.noConfusion h
  | ok t =>
    rw [hp] at h
    injection h with h
    refine ⟨t ++ (Common.null_allowed c ++ Common.default_clause c), ?_⟩
    rw [← h]
    simp only [String.append_assoc]

/-- A successful PostgreSQL column loop relates columns to their lines
pointwise, in declaration order. -/
theorem pg_fold_lines :
    ∀ (l : List Column) (es ls : List String),
      PostgreSQL.column_fold l = .ok (es, ls) →
      List.Forall₂ (fun c e => PostgreSQL.parse_column c = .ok e) l ls := by
  intro l
  induction l with
  | nil =>
    intro es ls h
    simp [PostgreSQL.column_fold] at h
    rw [h.2]
    exact List.Forall₂.nil
  | cons c rest ih =>
    intro es ls h
    by_cases hk : c.kind = .nativeEnum
    · rw [PostgreSQL.column_fold, if_pos hk] at h
      cases hen : PostgreSQL.parse_enum c with
      | error e2 => rw [hen] at h; exact Except.noConfusion h
      | ok en =>
        rw [hen] at h
        cases hline : PostgreSQL.parse_column c with
        | error e2 => rw [hline] at h; exact Except.noConfusion h
        | ok line =>
          rw [hline] at h
          cases hrest : PostgreSQL.column_fold rest with
          | error e2 => rw [hrest] at h; exact Except.noConfusion h
          | ok p =>
            obtain ⟨es2, ls2⟩ := p
            rw [hrest] at h
            injection h with h
            injection h with h1 h2
            rw [← h2]
            exact List.Forall₂.cons hline (ih es2 ls2 hrest)
    · rw [PostgreSQL.column_fold, if_neg hk] at h
      cases hline : PostgreSQL.parse_column c with
      | error e2 => rw [hline] at h; exact Except.noConfusion h
      | ok line =>
        rw [hline] at h
        cases hrest : PostgreSQL.column_fold rest with
        | error e2 => rw [hrest] at h; exact Except.noConfusion h
        | ok p =>
          obtain ⟨es2, ls2⟩ := p
          rw [hrest] at h
          injection h with h
          injection h with h1 h2
          rw [← h2]
          exact List.Forall₂.cons hline (ih es2 ls2 hrest)

/-- A model without references has an empty reference slot, whatever the
engine is (a non-InnoDB engine skips, InnoDB joins an empty list). -/
theorem refs_fragment_of_no_refs (m : Model) (h : m.references = []) :
    MySQL.refs_fragment m = "" := by
  unfold MySQL.refs_fragment MySQL.parse_references
  by_cases he : MySQL.engine m ≠ "InnoDB"
  · simp [he, optTruthy]
  · simp [he, h, optTruthy, sepJoin]

/-- Claim C3 (counterexample): a model with one primary-key column, no
relationships — and a decimal column — produces no statement at all on
MySQL: `create_table` raises `IndexError` from the decimal formatting bug. -/
theorem claim_c3_counterexample :
    MySQL.create_table mdlDec {} = .error .indexError
    ∧ (MySQL.create_table mdlDec {}).isOk = false := by
  decide

/-- Claim C3 (amended): for a model with exactly one primary-key-flagged
column, no compound spec, no relationships, and whose columns all
translate (on MySQL this excludes decimal columns, which always raise;
on PostgreSQL it excludes List columns without an array spec), both
builders succeed; the statement carries one line per declared column in
declaration order, each line starting with that column's name, and exactly
one primary-key clause, which references the flagged column. -/
theorem claim_c3_create_table_structure (m : Model) (cfg : DDLConfig) (pk : Column)
    (entries enums lines : List String)
    (h1 : m.stormPrimary = none)
    (h2 : m.columns.filter (fun c => c.primary) = [pk])
    (h3 : m.references = [])
    (h4 : mapEx MySQL.column_entry m.columns = .ok entries)
    (h5 : PostgreSQL.column_fold m.columns = .ok (enums, lines)) :
    List.Forall₂ (fun c e => ∃ r, e = "`" ++ c.name ++ "` " ++ r) m.columns entries
    ∧ MySQL.detect_primary_key m = .ok ("PRIMARY KEY(`" ++ pk.name ++ "`)")
    ∧ MySQL.create_table m cfg =
        .ok ((if dropBeforeCreate cfg then MySQL.drop_table m cfg ++ ";\n" else "")
          ++ (MySQL.header m cfg
            ++ joinStr (entries.map (fun e => "  " ++ e ++ ",\n"))
            ++ "  " ++ ("PRIMARY KEY(`" ++ pk.name ++ "`)") ++ "\n"
            ++ "\n) ENGINE=" ++ MySQL.engine m ++ " DEFAULT CHARSET=utf8;\n"))
    ∧ List.Forall₂ (fun c e => ∃ r, e = c.name ++ " " ++ r) m.columns lines
    ∧ PostgreSQL.detect_primary_key m =
        .ok ("CONSTRAINT " ++ m.tableName ++ "_pkey PRIMARY KEY(" ++ pk.name ++ ")")
    ∧ PostgreSQL.create_table m cfg =
        .ok ((if dropBeforeCreate cfg then PostgreSQL.drop_table m cfg ++ ";\n" else "")
          ++ (joinStr enums
            ++ (PostgreSQL.header m cfg
              ++ joinStr (lines.map (fun e => "  " ++ e ++ ",\n"))
              ++ "  " ++ ("CONSTRAINT " ++ m.tableName ++ "_pkey PRIMARY KEY(" ++ pk.name ++ ")")
              ++ "\n);\n"))) := by
  have hfind : m.columns.find? (fun c => c.primary) = some pk :=
    find_of_filter_singleton m.columns pk h2
  have hmp : MySQL.detect_primary_key m = .ok ("PRIMARY KEY(`" ++ pk.name ++ "`)") := by
    simp [MySQL.detect_primary_key, h1, hfind]
  have hpp : PostgreSQL.detect_primary_key m =
      .ok ("CONSTRAINT " ++ m.tableName ++ "_pkey PRIMARY KEY(" ++ pk.name ++ ")") := by
    simp [PostgreSQL.detect_primary_key, h1, hfind]
  have hforallM : List.Forall₂ (fun c e => ∃ r, e = "`" ++ c.name ++ "` " ++ r) m.columns entries :=
    mapEx_forall2 (fun c e hce => mysql_entry_shape c e hce) m.columns entries h4
  have hforallP : List.Forall₂ (fun c e => ∃ r, e = c.name ++ " " ++ r) m.columns lines :=
    (pg_fold_lines m.columns enums lines h5).imp (fun a b hce => pg_line_shape a b hce)
  have hmc := mysql_create_ok m cfg entries _ h4 hmp
  rw [refs_fragment_of_no_refs m h3] at hmc
  refine ⟨hforallM, hmp, ?_, hforallP, hpp, pg_create_ok m cfg enums lines _ h5 hpp⟩
  rw [hmc]
  simp only [String.append_empty]

/-- Claim C3 (check): the structure theorem at a concrete two-column model
evaluates to the expected full statements on both backends. -/
theorem claim_c3_create_table_structure_check :
    MySQL.create_table mdlUser {} = .ok "CREATE TABLE `user` (\n  `id` int AUTO_INCREMENT,\n  `email` varchar NOT NULL,\n  PRIMARY KEY(`id`)\n\n) ENGINE=InnoDB DEFAULT CHARSET=utf8;\n"
    ∧ PostgreSQL.create_table mdlUser {} = .ok "CREATE TABLE user (\n  id serial,\n  email varchar NOT NULL,\n  CONSTRAINT user_pkey PRIMARY KEY(id)\n);\n" := by
  have h := claim_c3_create_table_structure mdlUser {} colId
    ["`id` int AUTO_INCREMENT", "`email` varchar NOT NULL"] []
    ["id serial", "email varchar NOT NULL"]
    rfl (by decide) rfl (by decide) (by decide)
  refine ⟨?_, ?_⟩
  · rw [h.2.2.1]; decide
  · rw [h.2.2.2.2.2]; decide

/-- A native enum column inside a successful PostgreSQL column loop
contributes one entry to the enum declaration list and one line to the
column line list, at matching positions. -/
theorem pg_fold_mem_enum :
    ∀ (l : List Column) (es ls : List String) (c : Column),
      PostgreSQL.column_fold l = .ok (es, ls) → c ∈ l → c.kind = .nativeEnum →
      (∃ es1 e es2, es = es1 ++ e :: es2 ∧ PostgreSQL.parse_enum c = .ok e)
      ∧ (∃ ls1 t ls2, ls = ls1 ++ t :: ls2 ∧ PostgreSQL.parse_column c = .ok t) := by
  intro l
  induction l with
  | nil => intro es ls c h hm hk; exact absurd hm (List.not_mem_nil c)
  | cons x rest ih =>
    intro es ls c h hm hk
    by_cases hx : x.kind = .nativeEnum
    · rw [PostgreSQL.column_fold, if_pos hx] at h
      cases hen : PostgreSQL.parse_enum x with
      | error e2 => rw [hen] at h; exact Except.noConfusion h
      | ok en =>
        rw [hen] at h
        cases hline : PostgreSQL.parse_column x with
        | error e2 => rw [hline] at h; exact Except.noConfusion h
        | ok line =>
          rw [hline] at h
          cases hrest : PostgreSQL.column_fold rest with
          | error e2 => rw [hrest] at h; exact Except.noConfusion h
          | ok p =>
            obtain ⟨es2, ls2⟩ := p
            rw [hrest] at h
            injection h with h
            injection h with hA hB
            subst hA
            subst hB
            cases hm with
            | head =>
              exact ⟨⟨[], en, es2, rfl, hen⟩, ⟨[], line, ls2, rfl, hline⟩⟩
            | tail _ hmem =>
              obtain ⟨⟨es1p, ep, es2p, hes, hep⟩, ⟨ls1p, tp, ls2p, hls, htp⟩⟩ :=
                ih es2 ls2 c hrest hmem hk
              exact ⟨⟨en :: es1p, ep, es2p, by rw [hes, List.cons_append], hep⟩,
                ⟨line :: ls1p, tp, ls2p, by rw [hls, List.cons_append], htp⟩⟩
    · rw [PostgreSQL.column_fold, if_neg hx] at h
      cases hline : PostgreSQL.parse_column x with
      | error e2 => rw [hline] at h; exact Except.noConfusion h
      | ok line =>
        rw [hline] at h
        cases hrest : PostgreSQL.column_fold rest with
        | error e2 => rw [hrest] at h; exact Except.noConfusion h
        | ok p =>
          obtain ⟨es2, ls2⟩ := p
          rw [hrest] at h
          injection h with h
          injection h with hA hB
          subst hA
          subst hB
          cases hm with
          | head => exact absurd hk hx
          | tail _ hmem =>
            obtain ⟨⟨es1p, ep, es2p, hes, hep⟩, ⟨ls1p, tp, ls2p, hls, htp⟩⟩ :=
              ih es2 ls2 c hrest hmem hk
            exact ⟨⟨es1p, ep, es2p, hes, hep⟩,
              ⟨line :: ls1p, tp, ls2p, by rw [hls, List.cons_append], htp⟩⟩

/-- Claim C4 (counterexample): with the mapping 1=a, 2=b, 3=c the rendered
label lists use a comma-space separator, not the bare commas the claim
writes: the claimed literals `enum('a','b','c')` are not produced. -/
theorem claim_c4_counterexample :
    MySQL.parse_enum colMood = .ok "`mood` enum(\x27a\x27, \x27b\x27, \x27c\x27)"
    ∧ ("`mood` enum(\x27a\x27, \x27b\x27, \x27c\x27)" : String)
        ≠ "`mood` enum(\x27a\x27,\x27b\x27,\x27c\x27)"
    ∧ PostgreSQL.parse_enum colMood = .ok "CREATE TYPE enum_mood AS ENUM (\x27a\x27, \x27b\x27, \x27c\x27);\n"
    ∧ ("CREATE TYPE enum_mood AS ENUM (\x27a\x27, \x27b\x27, \x27c\x27);\n" : String)
        ≠ "CREATE TYPE enum_mood AS ENUM (\x27a\x27,\x27b\x27,\x27c\x27);\n" := by
  decide

/-- Claim C4 (amended): a native enum column with mapping 1=a, 2=b, 3=c
renders inline as `` `name` enum('a', 'b', 'c')`` on MySQL (labels
single-quoted, joined by comma-space, ordered by ascending key); on
PostgreSQL it yields the standalone statement
`CREATE TYPE enum_name AS ENUM ('a', 'b', 'c');` which textually precedes
the CREATE TABLE text of the table statement, and the column's type slot
references `enum_name`. -/
theorem claim_c4_enum_rendering (m : Model) (cfg : DDLConfig) (c : Column) (q : String)
    (hk : c.kind = .nativeEnum) (hmap : c.enumMap = [(1, "a"), (2, "b"), (3, "c")]) :
    MySQL.parse_enum c = .ok ("`" ++ c.name ++ "` enum(\x27a\x27, \x27b\x27, \x27c\x27)")
    ∧ PostgreSQL.parse_enum c =
        .ok ("CREATE TYPE enum_" ++ c.name ++ " AS ENUM (\x27a\x27, \x27b\x27, \x27c\x27);\n")
    ∧ (c ∈ m.columns → PostgreSQL.create_table m cfg = .ok q →
        ∃ pre mid post,
          q = pre ++ ("CREATE TYPE enum_" ++ c.name ++ " AS ENUM (\x27a\x27, \x27b\x27, \x27c\x27);\n")
            ++ mid ++ "CREATE TABLE " ++ post
          ∧ ∃ u v, post = u ++ (c.name ++ " enum_" ++ c.name) ++ v) := by
  have hl : enumLabels [(1, "a"), (2, "b"), (3, "c")] = .ok ["a", "b", "c"] := by decide
  have hq : quoteJoin ["a", "b", "c"] = "\x27a\x27, \x27b\x27, \x27c\x27" := by decide
  have hme : MySQL.parse_enum c = .ok ("`" ++ c.name ++ "` enum(\x27a\x27, \x27b\x27, \x27c\x27)") := by
    unfold MySQL.parse_enum
    rw [if_pos hk, hmap, hl]
    simp [hq, String.append_assoc]
  have hpe : PostgreSQL.parse_enum c =
      .ok ("CREATE TYPE enum_" ++ c.name ++ " AS ENUM (\x27a\x27, \x27b\x27, \x27c\x27);\n") := by
    unfold PostgreSQL.parse_enum
    rw [if_pos hk, hmap, hl]
    simp [hq, String.append_assoc]
  refine ⟨hme, hpe, ?_⟩
  intro hmem hcreate
  cases hE : PostgreSQL.column_fold m.columns with
  | error e => simp [PostgreSQL.create_table, hE] at hcreate
  | ok p =>
    obtain ⟨enums, lines⟩ := p
    cases hP : PostgreSQL.detect_primary_key m with
    | error e => simp [PostgreSQL.create_table, hE, hP] at hcreate
    | ok pk =>
      rw [pg_create_ok m cfg enums lines pk hE hP] at hcreate
      injection hcreate with hcreate
      subst hcreate
      obtain ⟨⟨es1, edecl, es2, hes, hedecl⟩, ⟨ls1, t, ls2, hls, ht⟩⟩ :=
        pg_fold_mem_enum m.columns enums lines c hE hmem hk
      have hdecl : edecl =
          "CREATE TYPE enum_" ++ c.name ++ " AS ENUM (\x27a\x27, \x27b\x27, \x27c\x27);\n" := by
        rw [hpe] at hedecl
        injection hedecl with h2
        exact h2.symm
      have hparse : PostgreSQL.parse c = .ok ("enum_" ++ c.name) := by
        simp [PostgreSQL.parse, hk]
      have ht2 : t = c.name ++ " " ++ ("enum_" ++ c.name)
          ++ Common.null_allowed c ++ Common.default_clause c := by
        unfold PostgreSQL.parse_column at ht
        rw [hparse] at ht
        injection ht with h2
        exact h2.symm
      subst hes
      subst hls
      refine ⟨(if dropBeforeCreate cfg then PostgreSQL.drop_table m cfg ++ ";\n" else "")
          ++ joinStr es1,
        joinStr es2,
        (if pyTruthy cfg.createTableIfNotExists then "IF NOT EXISTS " ++ m.tableName
          else m.tableName)
          ++ " (\n"
          ++ joinStr (ls1.map (fun e => "  " ++ e ++ ",\n"))
          ++ "  " ++ t ++ ",\n"
          ++ joinStr (ls2.map (fun e => "  " ++ e ++ ",\n"))
          ++ "  " ++ pk ++ "\n);\n", ?_, ?_⟩
      · rw [hdecl, joinStr_append, List.map_append, List.map_cons, joinStr_append]
        simp only [joinStr, PostgreSQL.header]
        simp only [String.append_assoc]
      · rw [ht2]
        rw [show (" enum_" : String) = " " ++ "enum_" from rfl]
        simp only [String.append_assoc]
        refine ⟨(if pyTruthy cfg.createTableIfNotExists then "IF NOT EXISTS " ++ m.tableName
            else m.tableName)
            ++ (" (\n"
              ++ (joinStr (ls1.map (fun e => "  " ++ e ++ ",\n"))
                ++ "  ")),
          Common.null_allowed c
            ++ (Common.default_clause c
              ++ (",\n"
                ++ (joinStr (ls2.map (fun e => "  " ++ e ++ ",\n"))
                  ++ ("  " ++ (pk ++ "\n);\n"))))), ?_⟩
        simp only [String.append_assoc]

/-- Claim C4 (check): the amended theorem at the concrete enum model. -/
theorem claim_c4_enum_rendering_check :
    MySQL.parse_enum colMood = .ok "`mood` enum(\x27a\x27, \x27b\x27, \x27c\x27)"
    ∧ (∃ pre mid post,
        "CREATE TYPE enum_mood AS ENUM (\x27a\x27, \x27b\x27, \x27c\x27);\nCREATE TABLE p (\n  id serial,\n  mood enum_mood,\n  CONSTRAINT p_pkey PRIMARY KEY(id)\n);\n"
          = pre ++ ("CREATE TYPE enum_" ++ colMood.name ++ " AS ENUM (\x27a\x27, \x27b\x27, \x27c\x27);\n")
            ++ mid ++ "CREATE TABLE " ++ post
          ∧ ∃ u v, post = u ++ (colMood.name ++ " enum_" ++ colMood.name) ++ v) := by
  have h := claim_c4_enum_rendering mdlEnum {} colMood
    "CREATE TYPE enum_mood AS ENUM (\x27a\x27, \x27b\x27, \x27c\x27);\nCREATE TABLE p (\n  id serial,\n  mood enum_mood,\n  CONSTRAINT p_pkey PRIMARY KEY(id)\n);\n"
    (by decide) (by decide)
  refine ⟨?_, h.2.2 (by decide) (by decide)⟩
  rw [h.1]
  decide

end Mamba
